import Mathlib

/-!
Shallow embedding of the adaptive-learning-system core
(`src/core/search.py`, `src/core/indexing.py`, `src/core/question_analysis.py`,
`src/core/adaptive_response.py`, `src/main.py`) in Lean 4, together with
theorems settling the specification claims about it.

Modelling conventions:
* Python floats become `ℚ` (all constants in the code are decimal literals).
* Python dicts parsed from LLM JSON output become structures with `Option`
  fields; `d.get(key, default)` becomes `field.getD default` and a bare
  `d[key]` access that can raise `KeyError` becomes a `match` on the field.
* The vector store (ChromaDB collection) is an oracle: `query` returns
  `none` when the backend raises, otherwise the parallel `documents` /
  `metadatas` arrays; `cget` models `collection.get(limit=...)`.
* An LLM call is an oracle `LLMOutcome α`: `failure msg` covers a raised
  call, a response without a JSON span, and a JSON parse error (all three
  are handled identically by the code's `except` clauses); `success a`
  is a successfully parsed JSON object.  Prompt strings, which only flow
  into the oracle, are not modelled.
* Functions that the code runs for their observable effects return run
  records carrying counters of vector-store and completion-service calls.
-/

/-- Python `needle in hay` on lists of characters: `listHasPre n h` is
`n` being an initial segment of `h`. -/
def listHasPre : List Char → List Char → Bool
  | [], _ => true
  | _ :: _, [] => false
  | a :: as, b :: bs => a == b && listHasPre as bs

/-- `listHasSub n h`: `n` occurs contiguously inside `h`. -/
def listHasSub (needle : List Char) : List Char → Bool
  | [] => listHasPre needle []
  | b :: bs => listHasPre needle (b :: bs) || listHasSub needle bs

/-- Python substring test `needle in hay`. -/
def strContains (hay needle : String) : Bool :=
  listHasSub needle.data hay.data

/-- Python `s.lower()` (character-wise, over the string's code points). -/
def strToLower (s : String) : String := ⟨s.data.map Char.toLower⟩

/-- Splitting a character list at every whitespace character,
accumulating the current token in reverse. -/
def splitWsAux : List Char → List Char → List (List Char)
  | [], acc => [acc.reverse]
  | c :: cs, acc =>
    if c.isWhitespace then acc.reverse :: splitWsAux cs []
    else splitWsAux cs (c :: acc)

/-- Python `s.split()`: split on whitespace, dropping empty tokens. -/
def pySplit (s : String) : List String :=
  ((splitWsAux s.data []).map fun cs => String.mk cs).filter fun t => t ≠ ""

/-- Python slicing `s[:n]` (by code points). -/
def strTake (s : String) (n : ℕ) : String := ⟨s.data.take n⟩

/-- Metadata dict attached to an indexed document;
the code reads keys `type` and `file` with `.get(key, default)`. -/
structure Metadata where
  type : Option String
  file : Option String
deriving DecidableEq, Repr

/-- One element of the list built by `search_content`:
`{"content": ..., "metadata": ...}`. -/
structure SearchResult where
  content : String
  metadata : Metadata
deriving DecidableEq, Repr

/-- One element of the list built by `rerank_results`: the original result
dict spread together with `relevance_score` and `keyword_matches`. -/
structure ScoredResult where
  content : String
  metadata : Metadata
  relevance_score : ℚ
  keyword_matches : ℕ
deriving DecidableEq, Repr

/-- The ChromaDB collection, as an oracle.  `query q n = none` models the
backend raising; `some (docs, metas)` are the parallel arrays
`results['documents'][0]` and `results['metadatas'][0]`.  `cget limit`
models `collection.get(limit=limit)`, returning the sampled documents,
`none` when the backend raises. -/
structure Collection where
  query : String → ℕ → Option (List String × List Metadata)
  cget : ℕ → Option (List String)

/-- `search_content` (src/core/search.py lines 11-41).  The whole body is
inside `try`: a backend error returns `[]`, and so does the `IndexError`
raised when `metadatas[0]` is shorter than `documents[0]` (the partially
built `docs` list is discarded by the `except`). -/
def search_content (collection : Collection) (query : String)
    (n_results : ℕ := 3) : List SearchResult :=
  match collection.query query n_results with
  | none => []
  | some (docs, metas) =>
    if docs.length ≤ metas.length then
      (docs.zip metas).map fun dm => ⟨dm.1, dm.2⟩
    else []

/-- The per-result scoring step of `rerank_results`
(src/core/search.py lines 67-96): base `0.8`, keyword-overlap bonus
`min(overlap * 0.1, 0.3)` where `overlap = len(query_terms ∩ content_terms)`
on lowercased whitespace tokens, and the content-type bonus chain. -/
def enhance_result (query : String) (result : SearchResult) : ScoredResult :=
  let content := strToLower result.content
  let base_score : ℚ := 8/10
  let query_terms := (pySplit (strToLower query)).dedup
  let overlap := (query_terms.filter fun t => t ∈ pySplit content).length
  let keyword_bonus : ℚ := min ((overlap : ℚ) * (1/10)) (3/10)
  let content_type := result.metadata.type.getD ""
  let type_bonus : ℚ :=
    if content_type == "exercise" &&
        (strContains (strToLower query) "exercise" ||
          strContains (strToLower query) "practice" ||
          strContains (strToLower query) "question") then 2/10
    else if content_type == "video" &&
        (strContains (strToLower query) "video" ||
          strContains (strToLower query) "watch" ||
          strContains (strToLower query) "tutorial") then 2/10
    else if content_type == "text" &&
        (strContains (strToLower query) "explain" ||
          strContains (strToLower query) "definition" ||
          strContains (strToLower query) "concept") then 1/10
    else 0
  ⟨result.content, result.metadata, base_score + keyword_bonus + type_bonus, overlap⟩

/-- The `enhanced_results` list of `rerank_results`, in input order. -/
def enhanced_results (query : String) (initial_results : List SearchResult) :
    List ScoredResult :=
  initial_results.map (enhance_result query)

/-- The comparison used by `enhanced_results.sort(key=..., reverse=True)`:
`a` may come before `b` iff `a`'s score is at least `b`'s. -/
def scoreLe (a b : ScoredResult) : Bool :=
  decide (b.relevance_score ≤ a.relevance_score)

/-- Python's stable `list.sort(key=lambda x: x['relevance_score'],
reverse=True)`, modelled as a stable merge sort under `scoreLe`. -/
def sort_by_relevance (l : List ScoredResult) : List ScoredResult :=
  l.mergeSort scoreLe

/-- `rerank_results` (src/core/search.py lines 44-102). -/
def rerank_results (query : String) (initial_results : List SearchResult)
    (top_k : ℕ := 3) : List ScoredResult :=
  if initial_results = [] then []
  else (sort_by_relevance (enhanced_results query initial_results)).take top_k

/-- `search_and_rerank` (src/core/search.py lines 105-125). -/
def search_and_rerank (collection : Collection) (query : String)
    (n_results : ℕ := 5) (top_k : ℕ := 3) : List ScoredResult :=
  let initial_results := search_content collection query n_results
  if initial_results = [] then []
  else rerank_results query initial_results top_k

/-! ## Indexing state tracker (src/core/indexing.py, src/main.py) -/

/-- A resource state: the `{filename: st_mtime}` dict built by
`get_resources_state`.  Python float timestamps become `ℚ`. -/
abbrev ResourceState := Finmap fun _ : String => ℚ

/-- The re-index decision in `setup_content_indexing` / `main`
(src/main.py lines 106 and 191): `current_resources_state != last_indexed_state`. -/
def needsReindex (current last : ResourceState) : Bool :=
  decide (current ≠ last)

/-- What the persisted `index.state.json` file can look like to
`load_index_state`: missing, present but not valid JSON, or a parsed
resource-state mapping. -/
inductive StateFileContent where
  | absent
  | unparsable
  | parsed (st : ResourceState)

/-- `load_index_state` (src/core/indexing.py lines 144-161): missing file
or a `json.JSONDecodeError` both yield the empty mapping. -/
def load_index_state : StateFileContent → ResourceState
  | .absent => ∅
  | .unparsable => ∅
  | .parsed st => st

/-- A document produced by one of the five processors. -/
structure Document where
  content : String
  doctype : Option String
deriving DecidableEq, Repr

/-- A regular file of the resources directory as seen by the indexing
loop: its suffix, and what its processor does on it — `.ok docs` for a
successful run (a singleton list for the single-document processors),
`.error msg` for a raised exception. -/
structure SrcFile where
  suffix : String
  outcome : Except String (List Document)

/-- The supported-suffix dispatch of `process_all_files`
(src/core/indexing.py lines 67-83); everything else is logged and skipped. -/
def supportedSuffix (s : String) : Bool :=
  s == ".txt" || s == ".pdf" || s == ".jpg" || s == ".jpeg" || s == ".mp4" || s == ".json"

/-- One iteration of the `for file_path in resources_path.iterdir()` loop of
`process_all_files` (src/core/indexing.py lines 64-86): the processor call
sits inside `try`, so a raising processor leaves the accumulator unchanged. -/
def process_file_step (documents : List Document) (f : SrcFile) : List Document :=
  if supportedSuffix (strToLower f.suffix) then
    match f.outcome with
    | .ok docs => documents ++ docs
    | .error _ => documents
  else documents

/-- `process_all_files` (src/core/indexing.py lines 44-88), over the list
of regular files of the resources directory; `exists_` is
`resources_path.exists()`. -/
def process_all_files (exists_ : Bool) (files : List SrcFile) : List Document :=
  if !exists_ then []
  else files.foldl process_file_step []

/-! ## Question understanding (src/core/question_analysis.py) -/

/-- Outcome of one `groq_client.chat.completions.create` call followed by
JSON-span extraction and parsing: `failure msg` for a raised call, a
response without a `{...}` span, or a JSON parse error (one `except`
handles all three); `success` carries the parsed object. -/
inductive LLMOutcome (α : Type) where
  | failure (msg : String)
  | success (a : α)
deriving DecidableEq

/-- JSON object parsed from the scope-validation LLM response
(fields may be missing). -/
structure ScopeDict where
  in_scope : Option Bool
  confidence : Option ℚ
  reasoning : Option String
deriving DecidableEq, Repr

/-- JSON object parsed from the maturity-analysis LLM response. -/
structure AnalysisDict where
  knowledge_level : Option String
  topics : Option (List String)
  confidence : Option ℚ
  reasoning : Option String
deriving DecidableEq, Repr

/-- JSON object parsed from the type-classification LLM response. -/
structure ClassifyDict where
  type : Option String
  verbosity : Option String
  style : Option String
  reasoning : Option String
deriving DecidableEq, Repr

/-- JSON object parsed from the indexed-content-analysis LLM response. -/
structure ContentDict where
  summary : Option String
  technologies : Option (List String)
  topics : Option (List String)
  content_types : Option (List String)
  example_questions : Option (List String)
  file_count : Option ℕ
deriving DecidableEq, Repr

/-- The empty dict `{}` — the only falsy value a parsed JSON object can
take in the `if not analysis` check of the generator. -/
def emptyAnalysis : AnalysisDict := ⟨none, none, none, none⟩

/-- `analyze_question_maturity` (src/core/question_analysis.py lines
14-88).  On the success path the code logs
`analysis['knowledge_level']` before returning: a parsed dict without
that key raises `KeyError` inside the `try` and falls to the failure
default. -/
def analyze_question_maturity (question : String)
    (groq_client : Option (LLMOutcome AnalysisDict)) : AnalysisDict :=
  match groq_client with
  | none =>
    ⟨some "intermediate", some ["general"], some (5/10),
      some "Default classification due to unavailable AI analysis"⟩
  | some outcome =>
    match outcome with
    | .failure msg =>
      ⟨some "intermediate", some ["general"], some (3/10),
        some ("Analysis failed: " ++ msg)⟩
    | .success analysis =>
      match analysis.knowledge_level with
      | none =>
        ⟨some "intermediate", some ["general"], some (3/10),
          some ("Analysis failed: " ++ "'knowledge_level'")⟩
      | some _ => analysis

/-- `classify_question_type` (src/core/question_analysis.py lines 91-163). -/
def classify_question_type (question : String)
    (groq_client : Option (LLMOutcome ClassifyDict)) : ClassifyDict :=
  match groq_client with
  | none => ⟨some "technical", some "detailed", some "educational", none⟩
  | some outcome =>
    match outcome with
    | .failure _ =>
      ⟨some "technical", some "moderate", some "educational",
        some "Classification failed, using default"⟩
    | .success classification => classification

/-- Observable run of `check_question_scope`: the returned dict plus how
many vector-store searches and completion-service calls were made. -/
structure ScopeCheckRun where
  verdict : ScopeDict
  search_calls : ℕ
  llm_calls : ℕ
deriving DecidableEq, Repr

/-- `check_question_scope` (src/core/question_analysis.py lines 166-273).
The no-LLM guard returns before anything else; with a client, one
`search_content(collection, question, 5)` runs, an empty result
short-circuits, and otherwise one LLM call decides (the derived topic
tags only feed the prompt, which is not modelled). -/
def check_question_scope (question : String) (collection : Collection)
    (groq_client : Option (LLMOutcome ScopeDict)) : ScopeCheckRun :=
  match groq_client with
  | none =>
    ⟨⟨some true, some (5/10), some "No LLM available for scope validation"⟩, 0, 0⟩
  | some outcome =>
    let search_results := search_content collection question 5
    if search_results = [] then
      ⟨⟨some false, some (9/10), some "No related content found in indexed database"⟩, 1, 0⟩
    else
      match outcome with
      | .failure _ =>
        ⟨⟨some true, some (3/10), some "Scope validation failed, defaulting to in-scope"⟩, 1, 1⟩
      | .success scope_result => ⟨scope_result, 1, 1⟩

/-- `analyze_indexed_content` (src/core/question_analysis.py lines
276-387), returning the resulting dict together with (vector-store calls,
LLM calls).  `collection.get(limit=30)` raising falls to the failure
default with `file_count` 0 (the variable is not yet in `locals()`); an
empty sample returns the empty-base default before the LLM call. -/
def analyze_indexed_content (collection : Collection)
    (groq_client : Option (LLMOutcome ContentDict)) : ContentDict × ℕ × ℕ :=
  match groq_client with
  | none =>
    (⟨some "Conteúdo educacional disponível", some ["Programação"],
      some ["Conceitos básicos"], some ["Materiais educacionais"],
      some ["O que você pode me ensinar?"], some 0⟩, 0, 0)
  | some outcome =>
    match collection.cget 30 with
    | none =>
      (⟨some "Conteúdo educacional sobre programação", some ["Programação geral"],
        some ["Conceitos básicos"], some ["Materiais educacionais"],
        some ["Explique conceitos básicos de programação"], some 0⟩, 1, 0)
    | some documents =>
      if documents = [] then
        (⟨some "Base de conhecimento vazia", some [], some [], some [],
          some ["Nenhum conteúdo disponível no momento"], some 0⟩, 1, 0)
      else
        match outcome with
        | .failure _ =>
          (⟨some "Conteúdo educacional sobre programação", some ["Programação geral"],
            some ["Conceitos básicos"], some ["Materiais educacionais"],
            some ["Explique conceitos básicos de programação"],
            some documents.length⟩, 1, 1)
        | .success analysis_result => (analysis_result, 1, 1)

/-! ## Adaptive response generator (src/core/adaptive_response.py) -/

/-- src/core/adaptive_response.py line 32. -/
def MSG_NOT_CONFIGURED : String :=
  "🤖 Desculpe, o serviço de IA não está configurado. Verifique as chaves de API."

/-- src/core/adaptive_response.py line 59. -/
def MSG_ANALYSIS_UNAVAILABLE : String :=
  "🤖 Desculpe, tive um problema ao analisar sua pergunta. A IA parece estar indisponível. Por favor, tente novamente em breve."

/-- src/core/adaptive_response.py line 168. -/
def MSG_GENERATION_PROBLEM : String :=
  "🤖 Desculpe, tive um problema ao gerar sua resposta. A IA parece estar indisponível. Por favor, tente novamente em breve."

/-- The Groq client as seen by one `generate_adaptive_response` run: one
oracle per LLM interaction the run can make.  `completion` is the final
`chat.completions.create` of step 4, which can raise. -/
structure GroqClient where
  scope : LLMOutcome ScopeDict
  classify : LLMOutcome ClassifyDict
  maturity : LLMOutcome AnalysisDict
  content : LLMOutcome ContentDict
  completion : Except String String

/-- `search_queries[:3]` where
`search_queries = [question] + analysis["topics"]`
(src/core/adaptive_response.py lines 62-65). -/
def build_search_queries (question : String) (topics : List String) : List String :=
  (question :: topics).take 3

/-- The retrieval loop (src/core/adaptive_response.py lines 63-67):
one `search_and_rerank(collection, query, 5, 3)` per query, results
extended onto `all_results` in query order. -/
def gather_results (collection : Collection) (queries : List String) :
    List ScoredResult :=
  queries.flatMap fun query => search_and_rerank collection query 5 3

/-- `result["content"][:100]`, the dedup identifier
(src/core/adaptive_response.py line 73). -/
def first100 (result : ScoredResult) : String :=
  strTake result.content 100

/-- The dedup loop over `all_results` with its `seen_content` accumulator
(src/core/adaptive_response.py lines 70-78); the Python `hash` of the
100-character slice is modelled by the slice itself. -/
def dedupAux (seen_content : List String) : List ScoredResult → List ScoredResult
  | [] => []
  | result :: rest =>
    if first100 result ∈ seen_content then dedupAux seen_content rest
    else result :: dedupAux (first100 result :: seen_content) rest

/-- `unique_results` as a function of `all_results`
(src/core/adaptive_response.py lines 70-78). -/
def dedup_results (all_results : List ScoredResult) : List ScoredResult :=
  dedupAux [] all_results

/-- The out-of-scope template (src/core/adaptive_response.py lines
189-231), rendered from the content-analysis dict with the code's
`.get` defaults and truthiness checks. -/
def render_out_of_scope (question : String) (content_analysis : ContentDict) : String :=
  let summary := content_analysis.summary.getD "Conteúdo educacional"
  let technologies := content_analysis.technologies.getD []
  let topics := content_analysis.topics.getD []
  let content_types := content_analysis.content_types.getD []
  let example_questions := content_analysis.example_questions.getD []
  let file_count := content_analysis.file_count.getD 0
  let technologies_text :=
    if technologies ≠ [] then
      "- 💻 **Tecnologias:** " ++ String.intercalate ", " technologies ++ "\n"
    else ""
  let topics_text :=
    if topics ≠ [] then "- 📚 **Tópicos:** " ++ String.intercalate ", " topics ++ "\n"
    else ""
  let content_types_text :=
    if content_types ≠ [] then
      "- 📖 **Formatos:** " ++ String.intercalate ", " content_types ++ "\n"
    else ""
  let file_info := "- 📁 **Documentos indexados:** " ++ toString file_count ++ "\n"
  let examples_text :=
    if example_questions ≠ [] then
      String.intercalate "\n"
        ((example_questions.take 4).map fun q => "- \"" ++ q ++ "\"")
    else "- \"Explique os conceitos disponíveis na base de conhecimento\""
  "\n🤖 **Desculpe, sua pergunta está fora do escopo da nossa base de conhecimento atual.**\n\n" ++
    "**Sua pergunta:** \"" ++ question ++ "\"\n\n" ++
    "**📋 Nossa base de conhecimento atual:**\n" ++ summary ++ "\n\n" ++
    "**🔍 Detalhes do conteúdo disponível:**\n" ++
    technologies_text ++ topics_text ++ content_types_text ++ file_info ++ "\n" ++
    "**💡 Sugestões de perguntas que posso responder:**\n" ++ examples_text ++ "\n\n" ++
    "**✨ Dica:** Faça perguntas relacionadas ao conteúdo que temos indexado e eu poderei gerar respostas personalizadas com texto, áudio e vídeo!\n\n" ++
    "Estou aqui para ajudar! 😊\n    "

/-- `generate_out_of_scope_response` (src/core/adaptive_response.py lines
171-231): content analysis, then the rendered template; returns the
string plus (vector-store calls, LLM calls). -/
def generate_out_of_scope_response (question : String) (collection : Collection)
    (groq_client : Option GroqClient) : String × ℕ × ℕ :=
  let r := analyze_indexed_content collection (groq_client.map fun g => g.content)
  (render_out_of_scope question r.1, r.2.1, r.2.2)

/-- Observable run of `generate_adaptive_response`: the returned string,
the number of vector-store calls, the number of completion-service calls,
and whether the `if not analysis` hard-failure branch of step 3 was taken. -/
structure GenRun where
  output : String
  vector_calls : ℕ
  llm_calls : ℕ
  analysis_abort : Bool
deriving DecidableEq, Repr

/-- `generate_adaptive_response` (src/core/adaptive_response.py lines
12-168).  The body after the no-client guard is a single `try`: the
`KeyError`s raised by `analysis["topics"]` (line 62) and by
`analysis['knowledge_level']` / `analysis['confidence']` in the prompt
f-string (lines 128-130), and the final completion call raising, all fall
to the `except` returning `MSG_GENERATION_PROBLEM`.  The assembled
context and prompt strings only feed the completion oracle and are not
tracked beyond their construction. -/
def generate_adaptive_response (collection : Collection) (question : String)
    (preferred_format : String) (groq_client : Option GroqClient) : GenRun :=
  match groq_client with
  | none => ⟨MSG_NOT_CONFIGURED, 0, 0, false⟩
  | some g =>
    let scope_validation := check_question_scope question collection (some g.scope)
    if scope_validation.verdict.in_scope.getD true = false then
      let oos := generate_out_of_scope_response question collection (some g)
      ⟨oos.1, scope_validation.search_calls + oos.2.1,
        scope_validation.llm_calls + oos.2.2, false⟩
    else
      let _question_type := classify_question_type question (some g.classify)
      let analysis := analyze_question_maturity question (some g.maturity)
      let base_v := scope_validation.search_calls
      let base_l := scope_validation.llm_calls + 2
      if analysis = emptyAnalysis then
        ⟨MSG_ANALYSIS_UNAVAILABLE, base_v, base_l, true⟩
      else
        match analysis.topics with
        | none => ⟨MSG_GENERATION_PROBLEM, base_v, base_l, false⟩
        | some topics =>
          let search_queries := build_search_queries question topics
          let all_results := gather_results collection search_queries
          let unique_results := dedup_results all_results
          let top_results := unique_results.take 3
          let _context := String.intercalate "\n\n" (top_results.map fun doc =>
            "Source: " ++ doc.metadata.file.getD "Unknown" ++
              "\nContent: " ++ strTake doc.content 400)
          let v2 := base_v + search_queries.length
          match analysis.knowledge_level, analysis.confidence with
          | some _, some _ =>
            (match g.completion with
             | .ok text => ⟨text, v2, base_l + 1, false⟩
             | .error _ => ⟨MSG_GENERATION_PROBLEM, v2, base_l + 1, false⟩)
          | _, _ => ⟨MSG_GENERATION_PROBLEM, v2, base_l, false⟩

/-! ## Concrete fixtures used by counterexamples and witnesses -/

/-- A collection whose backend raises on every call. -/
def errCollection : Collection := ⟨fun _ _ => none, fun _ => none⟩

/-- A collection holding the spec's single example document
`{content:"HTML is a markup language", metadata:{file:"html.txt", type:"text"}}`. -/
def oneDocCollection : Collection :=
  ⟨fun _ _ => some (["HTML is a markup language"], [⟨some "text", some "html.txt"⟩]),
   fun _ => some ["HTML is a markup language"]⟩

/-! ## Theorems -/

/-- C5: `needsReindex(A, B)` holds iff the resource states differ as
mappings; it is reflexive-false, and changing one file's timestamp,
adding a file, or removing a file each make it true. -/
theorem needsReindex_iff_ne (A B : ResourceState) (k : String) (v w : ℚ) :
    (needsReindex A B = true ↔ A ≠ B) ∧
    needsReindex A A = false ∧
    (A.lookup k = none → needsReindex (A.insert k v) A = true) ∧
    (A.lookup k = some w → v ≠ w → needsReindex (A.insert k v) A = true) ∧
    (k ∈ A → needsReindex (A.erase k) A = true) := by
  refine ⟨by simp [needsReindex], by simp [needsReindex], ?_, ?_, ?_⟩
  · intro hnone
    simp only [needsReindex, decide_eq_true_eq]
    intro he
    have h1 : (A.insert k v).lookup k = some v := Finmap.lookup_insert A
    rw [he, hnone] at h1
    exact Option.noConfusion h1
  · intro hsome hne
    simp only [needsReindex, decide_eq_true_eq]
    intro he
    have h1 : (A.insert k v).lookup k = some v := Finmap.lookup_insert A
    rw [he, hsome] at h1
    exact hne (Option.some_injective _ h1).symm
  · intro hmem
    simp only [needsReindex, decide_eq_true_eq]
    intro he
    have h1 : (A.erase k).lookup k = none := Finmap.lookup_erase k A
    rw [he] at h1
    rcases Finmap.mem_iff.mp hmem with ⟨b, hb⟩
    rw [hb] at h1
    exact Option.noConfusion h1

/-- C5 witness: the claim instantiated at the one-file state `{a.txt: 1}`. -/
theorem needsReindex_iff_ne_witness :
    needsReindex (((∅ : ResourceState).insert "a.txt" 1).insert "b.txt" 2)
        ((∅ : ResourceState).insert "a.txt" 1) = true ∧
    needsReindex (((∅ : ResourceState).insert "a.txt" 1).insert "a.txt" 3)
        ((∅ : ResourceState).insert "a.txt" 1) = true ∧
    needsReindex (((∅ : ResourceState).insert "a.txt" 1).erase "a.txt")
        ((∅ : ResourceState).insert "a.txt" 1) = true ∧
    needsReindex ((∅ : ResourceState).insert "a.txt" 1)
        ((∅ : ResourceState).insert "a.txt" 1) = false := by
  refine ⟨?_, ?_, ?_, ?_⟩
  · exact (needsReindex_iff_ne ((∅ : ResourceState).insert "a.txt" 1)
      ((∅ : ResourceState).insert "a.txt" 1) "b.txt" 2 0).2.2.1
      (by rw [Finmap.lookup_insert_of_ne _ (by decide), Finmap.lookup_empty])
  · exact (needsReindex_iff_ne ((∅ : ResourceState).insert "a.txt" 1)
      ((∅ : ResourceState).insert "a.txt" 1) "a.txt" 3 1).2.2.2.1
      (Finmap.lookup_insert ∅) (by norm_num)
  · exact (needsReindex_iff_ne ((∅ : ResourceState).insert "a.txt" 1)
      ((∅ : ResourceState).insert "a.txt" 1) "a.txt" 3 1).2.2.2.2
      (Finmap.mem_insert.mpr (Or.inl rfl))
  · exact (needsReindex_iff_ne ((∅ : ResourceState).insert "a.txt" 1)
      ((∅ : ResourceState).insert "a.txt" 1) "a.txt" 3 1).2.1

/-- C9: `load_index_state` returns the persisted mapping when the state
file exists and parses, and the empty mapping when the file is absent or
its content is not valid JSON. -/
theorem load_index_state_total (st : ResourceState) (f : StateFileContent) :
    load_index_state .absent = ∅ ∧
    load_index_state .unparsable = ∅ ∧
    (f = .parsed st → load_index_state f = st) := by
  exact ⟨rfl, rfl, fun h => by rw [h]; rfl⟩

/-- C9 witness: the persisted-state clause at the state `{a.txt: 1}`. -/
theorem load_index_state_total_witness :
    load_index_state (.parsed ((∅ : ResourceState).insert "a.txt" 1)) =
      (∅ : ResourceState).insert "a.txt" 1 :=
  (load_index_state_total ((∅ : ResourceState).insert "a.txt" 1)
    (.parsed ((∅ : ResourceState).insert "a.txt" 1))).2.2 rfl

/-- C6: with no LLM client `classify_question_type` returns the
`{technical, detailed, educational}` default, after an LLM failure it
returns the `{technical, moderate, educational}` default (with the fixed
failure reasoning), and the two defaults differ in the verbosity field. -/
theorem classify_question_type_defaults (question msg : String) :
    classify_question_type question none =
      ⟨some "technical", some "detailed", some "educational", none⟩ ∧
    classify_question_type question (some (.failure msg)) =
      ⟨some "technical", some "moderate", some "educational",
        some "Classification failed, using default"⟩ ∧
    (classify_question_type question none).verbosity ≠
      (classify_question_type question (some (.failure msg))).verbosity := by
  refine ⟨rfl, rfl, by simp [classify_question_type]⟩

/-- C6 witness: the two defaults at a concrete question, differing in
the verbosity field. -/
theorem classify_question_type_defaults_witness :
    (classify_question_type "What is HTML?" none).verbosity ≠
      (classify_question_type "What is HTML?"
        (some (.failure "timeout"))).verbosity :=
  (classify_question_type_defaults "What is HTML?" "timeout").2.2

/-- C7: `search_content` returns the empty list on any backend error
(a raising `query` call, or parallel arrays that make the build loop
raise), and `search_and_rerank` composes search with rerank,
short-circuiting to empty without reranking when the search is empty. -/
theorem search_never_raises (c : Collection) (q : String) (n k : ℕ)
    (docs : List String) (metas : List Metadata) :
    (c.query q n = none → search_content c q n = []) ∧
    (c.query q n = some (docs, metas) → metas.length < docs.length →
      search_content c q n = []) ∧
    (search_content c q n = [] → search_and_rerank c q n k = []) ∧
    (search_content c q n ≠ [] →
      search_and_rerank c q n k = rerank_results q (search_content c q n) k) := by
  refine ⟨?_, ?_, ?_, ?_⟩
  · intro h; simp [search_content, h]
  · intro h hlt; simp [search_content, h, Nat.not_le.mpr hlt]
  · intro h; simp [search_and_rerank, h]
  · intro h; simp [search_and_rerank, h]

/-- C7 witness: a raising backend yields an empty search and an empty
composed search-and-rerank. -/
theorem search_never_raises_witness :
    search_content errCollection "What is HTML?" 5 = [] ∧
    search_and_rerank errCollection "What is HTML?" 5 3 = [] := by
  have h := search_never_raises errCollection "What is HTML?" 5 3 [] []
  exact ⟨h.1 rfl, h.2.2.1 (h.1 rfl)⟩

/-- C1 counterexample: with no LLM client and a collection on which
`search(collection, question, 5)` is empty, `check_question_scope` runs
no search at all and returns the `{in_scope:true, confidence:0.5}`
default — not the `{in_scope:false, confidence:0.9}` verdict the claim
requires whenever the search is empty, and the no-LLM default is reached
without any successful collection search. -/
theorem check_question_scope_counterexample :
    search_content errCollection "What is HTML?" 5 = [] ∧
    (check_question_scope "What is HTML?" errCollection none).search_calls = 0 ∧
    (check_question_scope "What is HTML?" errCollection none).verdict =
      ⟨some true, some (5/10), some "No LLM available for scope validation"⟩ ∧
    ¬ ((check_question_scope "What is HTML?" errCollection none).verdict.in_scope
        = some false) := by
  refine ⟨rfl, rfl, rfl, ?_⟩
  intro h
  simp [check_question_scope] at h

/-- C1 amended: the no-LLM guard comes first — with no LLM client
`check_question_scope` returns `{in_scope:true, confidence:0.5}`
immediately, with no search and no completion call; only when a client is
configured does it run `search(collection, question, 5)`, and an empty
search then yields `{in_scope:false, confidence:0.9}` without invoking
the completion service. -/
theorem check_question_scope_amended (question : String) (c : Collection)
    (outcome : LLMOutcome ScopeDict) :
    check_question_scope question c none =
      ⟨⟨some true, some (5/10), some "No LLM available for scope validation"⟩, 0, 0⟩ ∧
    (search_content c question 5 = [] →
      check_question_scope question c (some outcome) =
        ⟨⟨some false, some (9/10),
          some "No related content found in indexed database"⟩, 1, 0⟩) := by
  refine ⟨rfl, ?_⟩
  intro h
  simp [check_question_scope, h]

/-- C1 witness: the amended claim at the raising-backend collection. -/
theorem check_question_scope_amended_witness :
    check_question_scope "What is HTML?" errCollection (some (.failure "boom")) =
      ⟨⟨some false, some (9/10),
        some "No related content found in indexed database"⟩, 1, 0⟩ :=
  (check_question_scope_amended "What is HTML?" errCollection (.failure "boom")).2 rfl

/-- C10 counterexample: when the LLM answer parses to a JSON object that
has a `knowledge_level` but no `topics` key, `analyze_question_maturity`
returns that object unchanged — a mapping that does not contain `topics`
or `confidence`, contradicting the claim that every return value
contains `knowledge_level`, `topics`, and `confidence`. -/
theorem analyze_question_maturity_counterexample :
    analyze_question_maturity "What is HTML?"
        (some (.success ⟨some "beginner", none, none, none⟩)) =
      ⟨some "beginner", none, none, none⟩ ∧
    (analyze_question_maturity "What is HTML?"
        (some (.success ⟨some "beginner", none, none, none⟩))).topics = none ∧
    (analyze_question_maturity "What is HTML?"
        (some (.success ⟨some "beginner", none, none, none⟩))).confidence = none :=
  ⟨rfl, rfl, rfl⟩

/-- C10 amended: for every question and every LLM-client value,
`analyze_question_maturity` returns a non-empty mapping that contains
`knowledge_level` (the no-LLM and LLM-failure defaults also contain
`topics` and `confidence`); consequently the generator's step-3
hard-failure branch — the `if not analysis` check returning the
"analysis unavailable" apology — is unreachable. -/
theorem analyze_question_maturity_never_falsy (question : String)
    (groq_client : Option (LLMOutcome AnalysisDict)) :
    (analyze_question_maturity question groq_client).knowledge_level.isSome ∧
    analyze_question_maturity question groq_client ≠ emptyAnalysis ∧
    (analyze_question_maturity question none).topics.isSome ∧
    (analyze_question_maturity question none).confidence.isSome ∧
    (∀ msg, (analyze_question_maturity question (some (.failure msg))).topics.isSome) ∧
    (∀ c preferred_format g,
      (generate_adaptive_response c question preferred_format g).analysis_abort
        = false) := by
  have hsome : ∀ go, (analyze_question_maturity question go).knowledge_level.isSome := by
    intro go
    match go with
    | none => rfl
    | some (.failure msg) => rfl
    | some (.success d) =>
      match hd : d.knowledge_level with
      | none => simp [analyze_question_maturity, hd]
      | some lvl => simp [analyze_question_maturity, hd]
  have hne : ∀ go, analyze_question_maturity question go ≠ emptyAnalysis := by
    intro go he
    have := hsome go
    rw [he] at this
    exact Bool.noConfusion this
  refine ⟨hsome _, hne _, rfl, rfl, fun _ => rfl, ?_⟩
  intro c preferred_format g
  match g with
  | none => rfl
  | some gg =>
    simp only [generate_adaptive_response]
    split
    · rfl
    · have h := hne (some gg.maturity)
      simp only [if_neg h]
      match (analyze_question_maturity question (some gg.maturity)).topics with
      | none => rfl
      | some topics =>
        match (analyze_question_maturity question (some gg.maturity)).knowledge_level,
            (analyze_question_maturity question (some gg.maturity)).confidence with
        | some _, some _ =>
          match gg.completion with
          | .ok text => rfl
          | .error _ => rfl
        | some _, none => rfl
        | none, _ => rfl

/-- C10 witness: the non-falsy guarantee at a concrete question with no
LLM client. -/
theorem analyze_question_maturity_never_falsy_witness :
    analyze_question_maturity "What is HTML?" none ≠ emptyAnalysis :=
  (analyze_question_maturity_never_falsy "What is HTML?" none).2.1

/-- The documents a single file contributes to the batch when its
processing is considered in isolation: the processor's output for a
supported, non-raising file, nothing otherwise. -/
def file_docs (f : SrcFile) : List Document :=
  if supportedSuffix (strToLower f.suffix) then
    match f.outcome with
    | .ok docs => docs
    | .error _ => []
  else []

/-- C8: a failure while processing one file is confined to that file —
`process_all_files` returns exactly the concatenated documents of all
non-failing supported files, in directory order, and never propagates
the exception (the missing-directory guard returns the empty batch). -/
theorem process_all_files_isolates_failures (files : List SrcFile) :
    process_all_files true files = files.flatMap file_docs ∧
    process_all_files false files = [] := by
  have step : ∀ acc f, process_file_step acc f = acc ++ file_docs f := by
    intro acc f
    unfold process_file_step file_docs
    split
    · match f.outcome with
      | .ok docs => rfl
      | .error _ => simp
    · simp
  have main : ∀ (fs : List SrcFile) (acc : List Document),
      fs.foldl process_file_step acc = acc ++ fs.flatMap file_docs := by
    intro fs
    induction fs with
    | nil => intro acc; simp
    | cons f rest ih =>
      intro acc
      rw [List.foldl_cons, step, ih, List.flatMap_cons, List.append_assoc]
  exact ⟨by simpa using main files [], rfl⟩

/-- C8 witness: a directory with a succeeding text file, a raising text
file, and an unsupported file yields exactly the first file's document. -/
theorem process_all_files_isolates_failures_witness :
    process_all_files true
      [⟨".txt", .ok [⟨"doc one", some "text"⟩]⟩, ⟨".txt", .error "corrupt"⟩,
        ⟨".exe", .ok [⟨"ignored", none⟩]⟩] = [⟨"doc one", some "text"⟩] :=
  (process_all_files_isolates_failures
    [⟨".txt", .ok [⟨"doc one", some "text"⟩]⟩, ⟨".txt", .error "corrupt"⟩,
      ⟨".exe", .ok [⟨"ignored", none⟩]⟩]).1.trans (by decide)

/-- C2: with no LLM client, `generate_adaptive_response` returns the
fixed "service not configured" apology with zero vector-store and zero
completion-service calls; an exception raised inside the in-scope body —
here the `KeyError` on a parsed analysis without `topics`, and a raising
final completion call — is caught at top level and converted to the
distinct fixed "problem generating the response" apology; the two
apology strings differ. -/
theorem generate_adaptive_response_error_handling (c : Collection)
    (question preferred_format msg : String) (g : GroqClient) (d : AnalysisDict) :
    generate_adaptive_response c question preferred_format none =
      ⟨MSG_NOT_CONFIGURED, 0, 0, false⟩ ∧
    MSG_NOT_CONFIGURED ≠ MSG_GENERATION_PROBLEM ∧
    ((check_question_scope question c (some g.scope)).verdict.in_scope.getD true
        = true →
      g.maturity = .success d → d.knowledge_level.isSome → d.topics = none →
      (generate_adaptive_response c question preferred_format (some g)).output
        = MSG_GENERATION_PROBLEM) ∧
    ((check_question_scope question c (some g.scope)).verdict.in_scope.getD true
        = true →
      g.maturity = .success d → d.knowledge_level.isSome → d.topics.isSome →
      d.confidence.isSome → g.completion = .error msg →
      (generate_adaptive_response c question preferred_format (some g)).output
        = MSG_GENERATION_PROBLEM) := by
  have hd_eq : ∀ (hkl : d.knowledge_level.isSome),
      g.maturity = .success d →
      analyze_question_maturity question (some g.maturity) = d := by
    intro hkl hm
    rw [hm]
    rcases Option.isSome_iff_exists.mp hkl with ⟨lvl, hl⟩
    simp [analyze_question_maturity, hl]
  have hd_ne : d.knowledge_level.isSome → d ≠ emptyAnalysis := by
    intro hkl he
    rw [he] at hkl
    exact Bool.noConfusion hkl
  refine ⟨rfl, by decide, ?_, ?_⟩
  · intro hscope hm hkl htop
    simp only [generate_adaptive_response]
    rw [if_neg (by simp [hscope])]
    rw [hd_eq hkl hm, if_neg (hd_ne hkl)]
    split
    · rfl
    · rename_i topics heq
      rw [htop] at heq
      exact Option.noConfusion heq
  · intro hscope hm hkl htop hconf hcomp
    simp only [generate_adaptive_response]
    rw [if_neg (by simp [hscope])]
    rw [hd_eq hkl hm, if_neg (hd_ne hkl)]
    rcases Option.isSome_iff_exists.mp htop with ⟨topics, htop'⟩
    rcases Option.isSome_iff_exists.mp hkl with ⟨lvl, hkl'⟩
    rcases Option.isSome_iff_exists.mp hconf with ⟨conf, hconf'⟩
    simp only [htop', hkl', hconf', hcomp]

/-- C2 witness: the claim's in-scope exception paths at a concrete
collection and client whose final completion call raises. -/
theorem generate_adaptive_response_error_handling_witness :
    (generate_adaptive_response oneDocCollection "What is HTML?" "text"
        (some ⟨.success ⟨some true, some 1, none⟩, .success ⟨none, none, none, none⟩,
          .success ⟨some "beginner", some ["html"], some 1, none⟩,
          .success ⟨none, none, none, none, none, none⟩,
          .error "boom"⟩)).output = MSG_GENERATION_PROBLEM ∧
    generate_adaptive_response oneDocCollection "What is HTML?" "text" none =
      ⟨MSG_NOT_CONFIGURED, 0, 0, false⟩ := by
  refine ⟨?_, ?_⟩
  · exact (generate_adaptive_response_error_handling oneDocCollection "What is HTML?"
      "text" "boom"
      ⟨.success ⟨some true, some 1, none⟩, .success ⟨none, none, none, none⟩,
        .success ⟨some "beginner", some ["html"], some 1, none⟩,
        .success ⟨none, none, none, none, none, none⟩, .error "boom"⟩
      ⟨some "beginner", some ["html"], some 1, none⟩).2.2.2
      (by rfl) rfl rfl rfl rfl rfl
  · exact (generate_adaptive_response_error_handling oneDocCollection "What is HTML?"
      "text" "boom"
      ⟨.success ⟨some true, some 1, none⟩, .success ⟨none, none, none, none⟩,
        .success ⟨some "beginner", some ["html"], some 1, none⟩,
        .success ⟨none, none, none, none, none, none⟩, .error "boom"⟩
      ⟨some "beginner", some ["html"], some 1, none⟩).1

/-- The deduplicated list is the input with later occurrences (of an
already-seen 100-character identifier) dropped, so its order is a
sub-order of the input's. -/
lemma dedupAux_sublist (seen : List String) (l : List ScoredResult) :
    List.Sublist (dedupAux seen l) l := by
  induction l generalizing seen with
  | nil => exact List.Sublist.refl []
  | cons r rest ih =>
    unfold dedupAux
    split
    · exact (ih seen).cons r
    · exact (ih (first100 r :: seen)).cons₂ r

/-- Every survivor of the dedup loop has an identifier that was not in
the `seen_content` accumulator at entry. -/
lemma mem_dedupAux_not_seen (seen : List String) (l : List ScoredResult) :
    ∀ b ∈ dedupAux seen l, first100 b ∉ seen := by
  induction l generalizing seen with
  | nil => intro b hb; simp [dedupAux] at hb
  | cons r rest ih =>
    intro b hb
    unfold dedupAux at hb
    split at hb
    · exact ih seen b hb
    · rcases List.mem_cons.mp hb with hb | hb
      · subst hb; assumption
      · intro hmem
        exact ih (first100 r :: seen) b hb (List.mem_cons_of_mem _ hmem)

/-- No two survivors of the dedup loop share a 100-character identifier. -/
lemma dedupAux_pairwise (seen : List String) (l : List ScoredResult) :
    (dedupAux seen l).Pairwise fun x y => first100 x ≠ first100 y := by
  induction l generalizing seen with
  | nil => exact List.Pairwise.nil
  | cons r rest ih =>
    unfold dedupAux
    split
    · exact ih seen
    · refine List.Pairwise.cons ?_ (ih (first100 r :: seen))
      intro b hb heq
      exact mem_dedupAux_not_seen _ _ b hb
        (by rw [← heq]; exact List.mem_cons_self _ _)

/-- Among entries sharing one identifier, exactly the first occurrence
survives the dedup loop: filtering the output on an identifier gives the
first matching entry of the input (if any). -/
lemma dedupAux_filter (l : List ScoredResult) (seen : List String) (p : String) :
    (dedupAux seen l).filter (fun r => first100 r == p) =
      if p ∈ seen then []
      else (l.filter fun r => first100 r == p).take 1 := by
  induction l generalizing seen with
  | nil => simp [dedupAux]
  | cons r rest ih =>
    unfold dedupAux
    by_cases hp : first100 r = p
    · subst hp
      by_cases hseen : first100 r ∈ seen
      · rw [if_pos hseen, ih seen]
        simp [hseen]
      · rw [if_neg hseen, List.filter_cons_of_pos (by simp), ih (first100 r :: seen),
          if_pos (List.mem_cons_self _ _), if_neg hseen,
          List.filter_cons_of_pos (by simp)]
        simp
    · by_cases hseen : first100 r ∈ seen
      · rw [if_pos hseen, ih seen, List.filter_cons_of_neg (by simp [hp])]
      · rw [if_neg hseen, List.filter_cons_of_neg (by simp [hp]),
          ih (first100 r :: seen), List.filter_cons_of_neg (by simp [hp])]
        have hiff : (p ∈ first100 r :: seen) ↔ (p ∈ seen) := by
          constructor
          · intro h
            rcases List.mem_cons.mp h with h | h
            · exact absurd h.symm hp
            · exact h
          · exact List.mem_cons_of_mem _
        simp only [hiff]

/-- C3: in the in-scope branch of the generator the query list is
`[question] ++ topics` capped to 3, each query is sent through
`searchAndRerank(collection, query, 5, 3)` and the results concatenated
in query order; deduplication by the first 100 content characters keeps
exactly the first occurrence of each identifier and preserves relative
order, and the retained list is cut to the first 3 unique results.  In
particular, of two results sharing a 100-character identifier exactly one
survives — the one appearing first in concatenation order. -/
theorem response_pipeline_dedup (l : List ScoredResult) (p : String)
    (a b : ScoredResult) (c : Collection) (question : String)
    (topics : List String) :
    List.Sublist (dedup_results l) l ∧
    (dedup_results l).Pairwise (fun x y => first100 x ≠ first100 y) ∧
    (dedup_results l).filter (fun r => first100 r == p) =
      (l.filter fun r => first100 r == p).take 1 ∧
    (List.Sublist [a, b] l → first100 b = first100 a →
      ((dedup_results l).filter fun r => first100 r == first100 a) =
        (l.filter fun r => first100 r == first100 a).take 1 ∧
      ((dedup_results l).filter fun r => first100 r == first100 a).length = 1) ∧
    gather_results c (build_search_queries question topics) =
      ((question :: topics).take 3).flatMap
        (fun query => search_and_rerank c query 5 3) ∧
    List.Sublist ((dedup_results l).take 3) (dedup_results l) ∧
    ((dedup_results l).take 3).length ≤ 3 := by
  have hfilter : ∀ q, (dedup_results l).filter (fun r => first100 r == q) =
      (l.filter fun r => first100 r == q).take 1 := by
    intro q
    unfold dedup_results
    rw [dedupAux_filter l [] q, if_neg (List.not_mem_nil q)]
  refine ⟨dedupAux_sublist [] l, dedupAux_pairwise [] l, hfilter p, ?_, rfl,
    List.take_sublist 3 _, by simp⟩
  intro hab hpre
  refine ⟨hfilter _, ?_⟩
  rw [hfilter _]
  have ha_mem : a ∈ l := hab.subset (List.mem_cons_self a [b])
  have ha_f : a ∈ l.filter fun r => first100 r == first100 a := by
    rw [List.mem_filter]
    exact ⟨ha_mem, by simp⟩
  match hm : l.filter fun r => first100 r == first100 a with
  | [] => rw [hm] at ha_f; exact absurd ha_f (List.not_mem_nil a)
  | x :: xs => simp

/-- C3 witness: of two results with the same content (hence the same
100-character identifier), exactly one survives deduplication. -/
theorem response_pipeline_dedup_witness :
    ((dedup_results [⟨"same content", ⟨none, none⟩, 1, 0⟩,
        ⟨"same content", ⟨none, none⟩, 2, 0⟩]).filter fun r =>
          first100 r == first100 ⟨"same content", ⟨none, none⟩, 1, 0⟩).length = 1 :=
  ((response_pipeline_dedup
      [⟨"same content", ⟨none, none⟩, 1, 0⟩, ⟨"same content", ⟨none, none⟩, 2, 0⟩]
      "" ⟨"same content", ⟨none, none⟩, 1, 0⟩ ⟨"same content", ⟨none, none⟩, 2, 0⟩
      errCollection "" []).2.2.2.1 (List.Sublist.refl _) rfl).2

/-- The code's keyword-overlap count — built with Python sets — equals
the cardinality of the intersection of the two token sets. -/
lemma overlap_eq_card_inter (A B : List String) :
    ((A.dedup.filter fun t => t ∈ B).length) = (A.toFinset ∩ B.toFinset).card := by
  have hnd : (A.dedup.filter fun t => t ∈ B).Nodup := A.nodup_dedup.filter _
  rw [← List.toFinset_card_of_nodup hnd]
  congr 1
  ext x
  simp

/-- The sort comparison of `rerank_results` is transitive. -/
lemma scoreLe_trans (a b c : ScoredResult) :
    scoreLe a b → scoreLe b c → scoreLe a c := by
  intro hab hbc
  simp only [scoreLe, decide_eq_true_eq] at *
  exact le_trans hbc hab

/-- The sort comparison of `rerank_results` is total. -/
lemma scoreLe_total (a b : ScoredResult) : scoreLe a b || scoreLe b a := by
  simp only [scoreLe, Bool.or_eq_true, decide_eq_true_eq]
  exact le_total _ _

/-- C4: `rerank_results` scores every result as
`0.8 + min(0.1·|queryTerms ∩ contentTerms|, 0.3) + typeBonus` with the
fixed type-bonus table over case-insensitive whitespace tokens, sorts
descending by score — stably, ties keeping input order — truncates to
`topK`, maps empty input to empty output, and gives the spec's example
hit the final score `0.9` from keyword bonus `0.1` and no type bonus. -/
theorem rerank_results_spec (query : String) (rs : List SearchResult) (k : ℕ) :
    rerank_results query [] k = [] ∧
    (rs ≠ [] → rerank_results query rs k =
      (sort_by_relevance (enhanced_results query rs)).take k) ∧
    (∀ r ∈ rs, enhance_result query r =
      ⟨r.content, r.metadata,
        8/10 +
          min ((((pySplit (strToLower query)).toFinset ∩
              (pySplit (strToLower r.content)).toFinset).card : ℚ) * (1/10)) (3/10) +
          (if r.metadata.type.getD "" == "exercise" &&
              (strContains (strToLower query) "exercise" ||
                strContains (strToLower query) "practice" ||
                strContains (strToLower query) "question") then 2/10
            else if r.metadata.type.getD "" == "video" &&
              (strContains (strToLower query) "video" ||
                strContains (strToLower query) "watch" ||
                strContains (strToLower query) "tutorial") then 2/10
            else if r.metadata.type.getD "" == "text" &&
              (strContains (strToLower query) "explain" ||
                strContains (strToLower query) "definition" ||
                strContains (strToLower query) "concept") then 1/10
            else 0),
        ((pySplit (strToLower query)).toFinset ∩
          (pySplit (strToLower r.content)).toFinset).card⟩) ∧
    (rerank_results query rs k).Pairwise
      (fun a b => b.relevance_score ≤ a.relevance_score) ∧
    (∀ a b, List.Sublist [a, b] (enhanced_results query rs) →
      b.relevance_score ≤ a.relevance_score →
      List.Sublist [a, b] (sort_by_relevance (enhanced_results query rs))) ∧
    (rerank_results query rs k).length ≤ k ∧
    (∀ x ∈ rerank_results query rs k, ∃ r ∈ rs, x = enhance_result query r) ∧
    rerank_results "What is HTML?"
        [⟨"HTML is a markup language", ⟨some "text", some "html.txt"⟩⟩] 3 =
      [⟨"HTML is a markup language", ⟨some "text", some "html.txt"⟩, 9/10, 1⟩] := by
  have hsorted : (sort_by_relevance (enhanced_results query rs)).Pairwise
      fun a b => b.relevance_score ≤ a.relevance_score := by
    have h := List.sorted_mergeSort scoreLe_trans scoreLe_total
      (enhanced_results query rs)
    exact h.imp fun hab => by simpa [scoreLe] using hab
  refine ⟨rfl, ?_, ?_, ?_, ?_, ?_, ?_, ?_⟩
  · intro h
    unfold rerank_results
    rw [if_neg h]
  · intro r _
    simp only [enhance_result]
    rw [overlap_eq_card_inter]
  · unfold rerank_results
    split
    · exact List.Pairwise.nil
    · exact hsorted.sublist (List.take_sublist k _)
  · intro a b hab hle
    exact List.pair_sublist_mergeSort scoreLe_trans scoreLe_total
      (by simpa [scoreLe] using hle) hab
  · unfold rerank_results
    split
    · simp
    · simp [List.length_take]
  · intro x hx
    unfold rerank_results at hx
    split at hx
    · exact absurd hx (List.not_mem_nil x)
    · have hx2 : x ∈ sort_by_relevance (enhanced_results query rs) :=
        (List.take_sublist k _).subset hx
      have hx3 : x ∈ enhanced_results query rs := by
        unfold sort_by_relevance at hx2
        exact List.mem_mergeSort.mp hx2
      rcases List.mem_map.mp hx3 with ⟨r, hr, hre⟩
      exact ⟨r, hr, hre.symm⟩
  · have hr0 : enhance_result "What is HTML?"
        ⟨"HTML is a markup language", ⟨some "text", some "html.txt"⟩⟩ =
        ⟨"HTML is a markup language", ⟨some "text", some "html.txt"⟩, 9/10, 1⟩ := by
      have hlen : ((pySplit (strToLower "What is HTML?")).dedup.filter fun t =>
          t ∈ pySplit (strToLower "HTML is a markup language")).length = 1 := by
        decide
      simp only [enhance_result]
      rw [hlen, if_neg (by decide), if_neg (by decide), if_neg (by decide)]
      norm_num
    unfold rerank_results
    rw [if_neg (by decide)]
    unfold sort_by_relevance enhanced_results
    rw [List.map_cons, List.map_nil, hr0]
    simp

/-- C4 witness: the shape clause at the example input, and the stability
clause at two equal-score results, which the stable sort keeps in their
original relative order. -/
theorem rerank_results_spec_witness :
    rerank_results "What is HTML?"
        [⟨"HTML is a markup language", ⟨some "text", some "html.txt"⟩⟩] 3 =
      (sort_by_relevance (enhanced_results "What is HTML?"
        [⟨"HTML is a markup language", ⟨some "text", some "html.txt"⟩⟩])).take 3 ∧
    List.Sublist
      [(⟨"aaa", ⟨none, none⟩, 8/10, 0⟩ : ScoredResult), ⟨"bbb", ⟨none, none⟩, 8/10, 0⟩]
      (sort_by_relevance (enhanced_results "q"
        [⟨"aaa", ⟨none, none⟩⟩, ⟨"bbb", ⟨none, none⟩⟩])) := by
  constructor
  · exact (rerank_results_spec "What is HTML?"
      [⟨"HTML is a markup language", ⟨some "text", some "html.txt"⟩⟩] 3).2.1
      (by simp)
  · have ha : enhance_result "q" ⟨"aaa", ⟨none, none⟩⟩ =
        ⟨"aaa", ⟨none, none⟩, 8/10, 0⟩ := by
      have hlen : ((pySplit (strToLower "q")).dedup.filter fun t =>
          t ∈ pySplit (strToLower "aaa")).length = 0 := by decide
      simp only [enhance_result]
      rw [hlen, if_neg (by decide), if_neg (by decide), if_neg (by decide)]
      norm_num
    have hb : enhance_result "q" ⟨"bbb", ⟨none, none⟩⟩ =
        ⟨"bbb", ⟨none, none⟩, 8/10, 0⟩ := by
      have hlen : ((pySplit (strToLower "q")).dedup.filter fun t =>
          t ∈ pySplit (strToLower "bbb")).length = 0 := by decide
      simp only [enhance_result]
      rw [hlen, if_neg (by decide), if_neg (by decide), if_neg (by decide)]
      norm_num
    have henh : enhanced_results "q" [⟨"aaa", ⟨none, none⟩⟩, ⟨"bbb", ⟨none, none⟩⟩] =
        [⟨"aaa", ⟨none, none⟩, 8/10, 0⟩, ⟨"bbb", ⟨none, none⟩, 8/10, 0⟩] := by
      unfold enhanced_results
      rw [List.map_cons, List.map_cons, List.map_nil, ha, hb]
    exact (rerank_results_spec "q"
      [⟨"aaa", ⟨none, none⟩⟩, ⟨"bbb", ⟨none, none⟩⟩] 3).2.2.2.2.1
      ⟨"aaa", ⟨none, none⟩, 8/10, 0⟩ ⟨"bbb", ⟨none, none⟩, 8/10, 0⟩
      (by rw [henh]) (le_refl _)
